import Mathlib

/-!
# Verification of the mockfs virtual file object (`mockfs/storage.py`)

A shallow embedding of the in-memory file object of `mockfs.storage`:
the `file` class, its mode tables, and the example `backend` store.
Python strings (file content) are modelled as `List Char` (in binary mode a
`Char` stands for a byte); file names and mode strings are Lean `String`s.
Errors (`IOError`, `ValueError`, `TypeError`, `AssertionError`) and the
`StopIteration` termination signal are an explicit `Err` type, and fallible
methods return `Except Err _`.  The global `_store` dict is threaded
explicitly as an association list `Store`.
-/

/-- Python exception classes raised by `mockfs.storage`, plus the
`StopIteration` termination signal of the iterator protocol. -/
inductive Err where
  | IOError : String → Err
  | ValueError : String → Err
  | TypeError : String → Err
  | AssertionError : String → Err
  | StopIteration : Err
deriving DecidableEq, Repr

/-- Tuple `READ_MODES` as first assigned (storage.py line 21): `('r', 'rb', 'rU')`. -/
def READ_MODES_BASE : List String := ["r", "rb", "rU"]

/-- Tuple `WRITE_MODES` as first assigned (line 22): `('w', 'wb', 'a', 'ab')`. -/
def WRITE_MODES_BASE : List String := ["w", "wb", "a", "ab"]

/-- Tuple `MIXED_MODES` (line 24). -/
def MIXED_MODES : List String := ["r+", "r+b", "w+", "w+b", "a+", "a+b"]

/-- Tuple `ALL_MODES = READ_MODES + WRITE_MODES + MIXED_MODES` (line 25), computed
from the pre-augmentation tuples, hence 13 tokens including `rU`. -/
def ALL_MODES : List String := READ_MODES_BASE ++ WRITE_MODES_BASE ++ MIXED_MODES

/-- Mutation `READ_MODES += MIXED_MODES` (line 26): final value of `READ_MODES`. -/
def READ_MODES : List String := READ_MODES_BASE ++ MIXED_MODES

/-- Mutation `WRITE_MODES += MIXED_MODES` (line 27): final value of `WRITE_MODES`. -/
def WRITE_MODES : List String := WRITE_MODES_BASE ++ MIXED_MODES

/-- The backing store `_store`: an association list from file name to
content, newest entry first (`SaveFile` prepends, `LoadFile` takes the
first match, which is observationally the Python dict). -/
abbrev Store := List (String × List Char)

/-- Method `backend.CheckForFile`. -/
def CheckForFile (store : Store) (filename : String) : Bool :=
  (List.lookup filename store).isSome

/-- Method `backend.LoadFile`; `none` models the absent-key case. -/
def LoadFile (store : Store) (filename : String) : Option (List Char) :=
  List.lookup filename store

/-- Method `backend.SaveFile`: create or overwrite. -/
def SaveFile (store : Store) (filename : String) (data : List Char) : Store :=
  (filename, data) :: store

/-- Python `data.replace('\n', '\r\n')` (the write-time translation of
text-mode handles, storage.py line 204): every LF becomes CRLF. -/
def lf2crlf : List Char → List Char
  | [] => []
  | c :: rest => if c = '\n' then '\r' :: '\n' :: lf2crlf rest else c :: lf2crlf rest

/-- Python `data.replace('\r\n', '\n')` (the load-time normalization,
storage.py line 129): leftmost, non-overlapping replacement of CRLF by LF. -/
def crlf2lf : List Char → List Char
  | [] => []
  | [c] => [c]
  | c1 :: c2 :: rest =>
      if c1 = '\r' ∧ c2 = '\n' then '\n' :: crlf2lf rest
      else c1 :: crlf2lf (c2 :: rest)

/-- Python `s.find(c)` restricted to a single-character needle, returning
`none` for Python's `-1`. -/
def strFind (c : Char) : List Char → Option Nat
  | [] => none
  | a :: rest => if a = c then some 0 else (strFind c rest).map (· + 1)

/-- The state of one `mockfs.storage.file` instance.  Field names follow the
Python attributes (`_name`, `_mode`, `_position`, `_closed`, `_binary`,
`_fileno`, `_in_iter`, `_softspace`, `_data`) without the underscore. -/
structure file where
  name : String
  mode : String
  position : Nat
  closed : Bool
  binary : Bool
  fileno : Nat
  in_iter : Bool
  softspace : Nat
  data : List Char
deriving DecidableEq, Repr

/-- Method `file._open_read` (storage.py lines 124-130): require the entry to
exist, load it, and in text mode normalize CRLF to LF. -/
def file.open_read (f : file) (store : Store) : Except Err file :=
  match LoadFile store f.name with
  | none => .error (.IOError ("No such file or directory: " ++ f.name))
  | some data =>
      .ok { f with data := if f.binary then data else crlf2lf data }

/-- Method `file._open_write` (lines 132-137): eagerly save an empty entry.  The
example backend's `SaveFile` cannot fail, so the `IOError` branch that marks
the handle closed is dead in this model. -/
def file.open_write (f : file) (store : Store) : file × Store :=
  (f, SaveFile store f.name [])

/-- Method `file._open_append` (lines 139-144). -/
def file.open_append (f : file) (store : Store) : Except Err (file × Store) :=
  if CheckForFile store f.name then
    match f.open_read store with
    | .error e => .error e
    | .ok f' => .ok ({ f' with position := f'.data.length }, store)
  else .ok (f.open_write store)

/-- Constructor `file.__init__` (lines 83-122).  The `name`/`mode` string type checks
are enforced by Lean's types; `fd` stands for the `get_new_fileno()` counter
value.  Checks happen in source order: mode membership in `ALL_MODES`
(ValueError), empty name (IOError), then the mode-family dispatch.
Python's `mode.endswith('b')` and `mode.startswith('a')` are rendered on
the character list (last character is `b`, first character is `a`), which
is equivalent for one-character affixes. -/
def file.init (name mode : String) (fd : Nat) (store : Store) :
    Except Err (file × Store) :=
  let f : file :=
    { name := name, mode := mode, position := 0, closed := false,
      binary := mode.toList.getLast? == some 'b', fileno := fd, in_iter := false,
      softspace := 0, data := [] }
  if mode ∉ ALL_MODES then
    .error (.ValueError
      ("The only supported modes are r(+)(b), w(+)(b) and a(+)(b), not " ++ mode))
  else if name = "" then
    .error (.IOError "No such file or directory: ''")
  else if mode ∈ READ_MODES ∧ mode.toList.headD ' ' ∉ (['a', 'w'] : List Char) then
    match f.open_read store with
    | .error e => .error e
    | .ok f' => .ok (f', store)
  else if mode ∈ WRITE_MODES then
    if mode.toList.head? == some 'a' then f.open_append store
    else .ok (f.open_write store)
  else
    .error (.AssertionError "whoops - not possible, surely??")

/-- Method `file.read` (lines 154-183).  `size = none` models the `DEFAULT`
sentinel; a negative size reads to end-of-content.  When the cursor is at 0
and the mode is not write-capable the content is reloaded from the store. -/
def file.read (f : file) (store : Store) (size : Option Int) :
    Except Err (List Char × file) :=
  if f.mode ∉ READ_MODES then .error (.IOError "Bad file descriptor")
  else if f.closed then .error (.ValueError "I/O operation on closed file")
  else if f.in_iter then
    .error (.ValueError "Mixing iteration and read methods would lose data")
  else
    let pos := f.position
    match (if pos = 0 ∧ f.mode ∉ WRITE_MODES then f.open_read store else .ok f) with
    | .error e => .error e
    | .ok f =>
      let sz : Nat :=
        match size with
        | none => f.data.length
        | some s => if s < 0 then f.data.length else s.toNat
      let chunk := (f.data.drop pos).take sz
      .ok (chunk, { f with position := pos + chunk.length })

/-- Method `file.write` (lines 185-211).  Text mode translates LF to CRLF; writing
past end-of-content pads the gap with `'\x00'`; trailing content beyond the
written span is preserved. -/
def file.write (f : file) (d : List Char) : Except Err file :=
  if f.mode ∉ WRITE_MODES then .error (.IOError "Bad file descriptor")
  else if f.closed then .error (.ValueError "I/O operation on closed file")
  else
    let f := { f with softspace := 0 }
    if d = [] then .ok f
    else
      let d := if f.binary then d else lf2crlf d
      let position := f.position
      let start := f.data.take position
      let padding := List.replicate (position - start.length) '\x00'
      let rest := f.data.drop (position + d.length)
      .ok { f with data := start ++ padding ++ d ++ rest,
                   position := position + d.length }

/-- Method `file.close` (lines 213-225): idempotent; on first close of a
write-capable handle, commit the content to the store. -/
def file.close (f : file) (store : Store) : file × Store :=
  if f.closed then (f, store)
  else
    let f := { f with closed := true }
    if f.mode ∈ WRITE_MODES then (f, SaveFile store f.name f.data) else (f, store)

/-- Method `file.seek` (lines 238-263): whence must be in 0..2, the resulting
position must be nonnegative, and the in-iteration flag is cleared.  The
`closed` flag is not checked. -/
def file.seek (f : file) (position whence : Int) : Except Err file :=
  if ¬(0 ≤ whence ∧ whence ≤ 2) then .error (.IOError "Invalid Argument")
  else
    let position :=
      if whence = 1 then (f.position : Int) + position
      else if whence = 2 then (f.data.length : Int) + position
      else position
    if position < 0 then .error (.IOError "Invalid Argument")
    else .ok { f with in_iter := false, position := position.toNat }

/-- Method `file.tell` (lines 265-267). -/
def file.tell (f : file) : Nat := f.position

/-- Method `file.flush` (lines 269-273): fails on non-write-capable modes,
otherwise saves unconditionally.  The `closed` flag is not checked. -/
def file.flush (f : file) (store : Store) : Except Err Store :=
  if f.mode ∉ WRITE_MODES then .error (.IOError "Bad file descriptor")
  else .ok (SaveFile store f.name f.data)

/-- The size-argument normalization at the top of `readline`
(lines 313-317): `DEFAULT` stays `DEFAULT` and a negative size is treated
as `DEFAULT`. -/
def normSize : Option Int → Option Nat
  | some s => if s < 0 then none else some s.toNat
  | none => none

/-- Method `file.readline` (lines 303-343).  `size = none` is the `DEFAULT`
sentinel and negative sizes are treated as `DEFAULT`. -/
def file.readline (f : file) (size : Option Int) :
    Except Err (List Char × file) :=
  if f.mode ∈ WRITE_MODES then .error (.IOError "Bad file descriptor")
  else
    let size : Option Nat := normSize size
    if f.data.length ≤ f.position then .ok ([], f)
    else
      let position := f.position
      let remaining := f.data.drop position
      match strFind '\n' remaining, size with
      | none, none => .ok (remaining, { f with position := f.data.length })
      | none, some sz =>
          if remaining.length < sz then
            .ok (remaining, { f with position := f.data.length })
          else
            let actual := remaining.take sz
            .ok (actual, { f with position := f.position + actual.length })
      | some poz, none =>
          .ok (remaining.take (poz + 1), { f with position := position + poz + 1 })
      | some poz, some sz =>
          let actual := remaining.take (poz + 1)
          if actual.length ≤ sz then
            .ok (actual, { f with position := f.position + actual.length })
          else
            .ok (actual.take sz, { f with position := f.position + sz })

/-- Method `file.__next__` (lines 292-299).  Note the state mutation
`_in_iter = True` happens before the `StopIteration` check; on the
`StopIteration` path the returned error carries no state, which only
`readlines` observes and which it immediately overwrites. -/
def file.next (f : file) : Except Err (List Char × file) :=
  if f.mode ∈ WRITE_MODES then .error (.IOError "Bad file descriptor")
  else
    let f := { f with in_iter := true }
    if f.data.length ≤ f.position then .error .StopIteration
    else f.readline none

/-- The `list(self)` loop inside `readlines`: repeated `__next__` until a
`StopIteration`.  Fuel-indexed; `data.length + 1 - position` units of fuel
always reach the `StopIteration` case because each successful step strictly
advances the cursor. -/
def file.readlinesAux : file → Nat → List (List Char) × file
  | f, 0 => ([], f)
  | f, fuel + 1 =>
    match f.next with
    | .error _ => ([], f)
    | .ok (line, f') =>
        let r := file.readlinesAux f' fuel
        (line :: r.1, r.2)

/-- Method `file.readlines` (lines 345-361): drain the iteration, then clear the
in-iteration flag.  The size argument is ignored by the source. -/
def file.readlines (f : file) (size : Option Int) :
    Except Err (List (List Char) × file) :=
  if f.mode ∈ WRITE_MODES then .error (.IOError "Bad file descriptor")
  else
    match size with
    | _ =>
      let r := file.readlinesAux f (f.data.length + 1 - f.position)
      .ok (r.1, { r.2 with in_iter := false })

/-- Method `file.truncate` (lines 383-398): rejected when the mode is in
`READ_MODES` (which, after line 26, includes every mixed mode); negative
explicit sizes raise `IOError`; the content is cut or null-padded to `size`
(the source pads with the text null `'\x00'` even in binary mode, which the
`List Char` model renders identically); finally `flush` commits. -/
def file.truncate (f : file) (store : Store) (size : Option Int) :
    Except Err (file × Store) :=
  if f.mode ∈ READ_MODES then .error (.IOError "Bad file descriptor")
  else
    match (match size with
           | some s =>
              if s < 0 then Except.error (Err.IOError "Invalid argument")
              else Except.ok s.toNat
           | none => Except.ok f.position : Except Err Nat) with
    | .error e => .error e
    | .ok sz =>
      let d := f.data.take sz
      let f := { f with data := d ++ List.replicate (sz - d.length) '\x00' }
      match f.flush store with
      | .error e => .error e
      | .ok store' => .ok (f, store')

/-- The 12-member mode set exactly as the spec enumerates it (the spec's
words, for comparison with the source's `ALL_MODES`). -/
def specTwelveModes : List String :=
  ["r", "rb", "r+", "r+b", "w", "wb", "w+", "w+b", "a", "ab", "a+", "a+b"]

/-- An open read-text handle on `"f"` with content `"a"`, as produced by
`file.init "f" "r" 3 [("f", ['a'])]`. -/
def c2f0 : file :=
  { name := "f", mode := "r", position := 0, closed := false, binary := false,
    fileno := 3, in_iter := false, softspace := 0, data := ['a'] }

/-- The handle `c2f0` after `close`. -/
def c2f1 : file := { c2f0 with closed := true }

/-- A mixed-mode (`r+`) text handle with content `"ab"`. -/
def c3f : file :=
  { name := "f", mode := "r+", position := 0, closed := false, binary := false,
    fileno := 3, in_iter := false, softspace := 0, data := ['a', 'b'] }

/-- A mixed-mode (`r+`) text handle with content `"ab\n"`. -/
def c4f : file :=
  { name := "f", mode := "r+", position := 0, closed := false, binary := false,
    fileno := 3, in_iter := false, softspace := 0, data := "ab\n".toList }

/-- A write-text (`w`) handle with empty content. -/
def c5f : file :=
  { name := "f", mode := "w", position := 0, closed := false, binary := false,
    fileno := 3, in_iter := false, softspace := 0, data := [] }

/-- A fresh mixed write (`w+`) handle with empty content, as produced by
`file.init "f" "w+" 3 []`. -/
def c7f : file :=
  { name := "f", mode := "w+", position := 0, closed := false, binary := false,
    fileno := 3, in_iter := false, softspace := 0, data := [] }

/-- An open read-text handle on `"f"` with content `"ab\ncd"`, as produced
by `file.init "f" "r" 3 [("f", "ab\ncd".toList)]`. -/
def c8f : file :=
  { name := "f", mode := "r", position := 0, closed := false, binary := false,
    fileno := 3, in_iter := false, softspace := 0, data := "ab\ncd".toList }

/-! ## General lemmas about the embedding -/

theorem lf2crlf_ne_lf_cons (T t : List Char) : lf2crlf T ≠ '\n' :: t := by
  cases T with
  | nil => simp [lf2crlf]
  | cons c rest =>
    by_cases hc : c = '\n'
    · rw [lf2crlf, if_pos hc]
      intro h
      injection h with h1 _
      exact absurd h1 (by decide)
    · rw [lf2crlf, if_neg hc]
      intro h
      injection h with h1 _
      exact hc h1

theorem crlf2lf_lf2crlf (T : List Char) : crlf2lf (lf2crlf T) = T := by
  induction T with
  | nil => rfl
  | cons c rest ih =>
    by_cases hc : c = '\n'
    · subst hc
      rw [lf2crlf, if_pos rfl, crlf2lf, if_pos ⟨rfl, rfl⟩, ih]
    · rw [lf2crlf, if_neg hc]
      cases hrest : lf2crlf rest with
      | nil =>
        rw [hrest] at ih
        rw [show crlf2lf [] = [] from rfl] at ih
        rw [← ih]
        rfl
      | cons c2 t =>
        have hc2 : ¬(c = '\r' ∧ c2 = '\n') := by
          rintro ⟨-, h2⟩
          exact lf2crlf_ne_lf_cons rest t (h2 ▸ hrest)
        rw [crlf2lf, if_neg hc2, ← hrest, ih]

theorem write_tail_drop (data d' : List Char) (pos : Nat) :
    (data.take pos ++ List.replicate (pos - (data.take pos).length) '\x00' ++ d' ++
        data.drop (pos + d'.length)).drop (pos + d'.length) =
      data.drop (pos + d'.length) := by
  have hassoc :
      data.take pos ++ List.replicate (pos - (data.take pos).length) '\x00' ++ d' ++
          data.drop (pos + d'.length) =
        (data.take pos ++ List.replicate (pos - (data.take pos).length) '\x00' ++ d') ++
          data.drop (pos + d'.length) := by
    simp [List.append_assoc]
  rw [hassoc, List.drop_left']
  simp only [List.length_append, List.length_replicate, List.length_take]
  omega

/-- Inversion for a successful `write`: the handle's flags are untouched
and the content beyond the final cursor is exactly the old content there. -/
theorem write_ok_spec (f : file) (d : List Char) (f' : file)
    (h : file.write f d = .ok f') :
    f'.closed = f.closed ∧ f'.mode = f.mode ∧ f'.name = f.name ∧
    f'.data.drop f'.position = f.data.drop f'.position := by
  simp only [file.write] at h
  split at h
  · exact Except.noConfusion h
  · split at h
    · exact Except.noConfusion h
    · split at h
      · injection h with h
        subst h
        exact ⟨rfl, rfl, rfl, rfl⟩
      · injection h with h
        subst h
        exact ⟨rfl, rfl, rfl, write_tail_drop _ _ _⟩

/-- Inversion for a successful `seek`: only the cursor and the cleared
in-iteration flag change. -/
theorem seek_ok_spec (f : file) (p w : Int) (f' : file)
    (h : file.seek f p w = .ok f') :
    ∃ n, f' = { f with in_iter := false, position := n } := by
  simp only [file.seek] at h
  repeat' split at h
  all_goals first
    | exact Except.noConfusion h
    | (injection h with h; exact ⟨_, h.symm⟩)

theorem strFind_lt_length (c : Char) :
    ∀ (l : List Char) (i : Nat), strFind c l = some i → i < l.length := by
  intro l
  induction l with
  | nil => intro i h; simp [strFind] at h
  | cons a rest ih =>
    intro i h
    rw [strFind] at h
    by_cases ha : a = c
    · rw [if_pos ha] at h
      injection h with h1
      subst h1
      simp
    · rw [if_neg ha] at h
      rcases Option.map_eq_some'.mp h with ⟨j, hj, hji⟩
      subst hji
      have := ih j hj
      simpa using Nat.succ_lt_succ this

/-- Inversion for a successful `readline`: only the cursor changes, and it
advances by exactly the length of the returned line. -/
theorem readline_ok_spec (f : file) (s : Option Int) (l : List Char) (f' : file)
    (h : file.readline f s = .ok (l, f')) :
    f' = { f with position := f.position + l.length } := by
  simp only [file.readline] at h
  split at h
  · exact Except.noConfusion h
  · split at h
    · injection h with h
      injection h with h1 h2
      subst h1
      subst h2
      simp
    · rename_i hEOF
      have hp : f.position < f.data.length := Nat.lt_of_not_le hEOF
      have hrem : (f.data.drop f.position).length = f.data.length - f.position :=
        List.length_drop _ _
      split at h
      · injection h with h
        injection h with h1 h2
        subst h1
        rw [← h2]
        congr 1
        omega
      · split at h
        · injection h with h
          injection h with h1 h2
          subst h1
          rw [← h2]
          congr 1
          omega
        · injection h with h
          injection h with h1 h2
          subst h1
          rw [← h2]
      · rename_i poz hF hsize
        have hpoz := strFind_lt_length '\n' _ _ hF
        injection h with h
        injection h with h1 h2
        subst h1
        rw [← h2]
        congr 1
        rw [List.length_take]
        omega
      · rename_i poz sz hF hsize
        have hpoz := strFind_lt_length '\n' _ _ hF
        split at h
        · injection h with h
          injection h with h1 h2
          subst h1
          rw [← h2]
        · rename_i hlen
          injection h with h
          injection h with h1 h2
          subst h1
          rw [← h2]
          congr 1
          rw [List.length_take] at hlen
          rw [List.length_take, List.length_take]
          omega

/-- Calling `readline` with the `DEFAULT` size on a cursor strictly inside the
content returns a nonempty line and advances the cursor by its length,
staying within the content. -/
theorem readline_none_progress (f : file) (hm : f.mode ∉ WRITE_MODES)
    (hp : f.position < f.data.length) :
    ∃ l, file.readline f none = .ok (l, { f with position := f.position + l.length }) ∧
      0 < l.length ∧ f.position + l.length ≤ f.data.length := by
  have hrem : (f.data.drop f.position).length = f.data.length - f.position :=
    List.length_drop _ _
  simp only [file.readline, if_neg hm, normSize]
  rw [if_neg (Nat.not_le.mpr hp)]
  cases hF : strFind '\n' (f.data.drop f.position) with
  | none =>
    refine ⟨f.data.drop f.position, ?_, by omega, by omega⟩
    have : f.data.length = f.position + (f.data.drop f.position).length := by omega
    simp only [← this]
  | some poz =>
    have hpoz := strFind_lt_length '\n' _ _ hF
    refine ⟨(f.data.drop f.position).take (poz + 1), ?_, ?_, ?_⟩
    · have : ((f.data.drop f.position).take (poz + 1)).length = poz + 1 := by
        rw [List.length_take]; omega
      rw [this]
      rfl
    · rw [List.length_take]; omega
    · rw [List.length_take]; omega

/-- Calling `__next__` on a read-capable handle with the cursor strictly inside the
content: sets the in-iteration flag and advances by one nonempty line. -/
theorem next_ok_spec (f : file) (hm : f.mode ∉ WRITE_MODES)
    (hp : f.position < f.data.length) :
    ∃ l, file.next f = .ok (l, { f with in_iter := true, position := f.position + l.length }) ∧
      0 < l.length ∧ f.position + l.length ≤ f.data.length := by
  obtain ⟨l, hrl, hl, hb⟩ :=
    readline_none_progress { f with in_iter := true } (by simpa using hm) (by simpa using hp)
  refine ⟨l, ?_, hl, by simpa using hb⟩
  simp only [file.next, if_neg hm]
  rw [if_neg (by simpa using Nat.not_le.mpr hp)]
  exact hrl

/-- Calling `__next__` at or past end-of-content raises `StopIteration`. -/
theorem next_stop (f : file) (hm : f.mode ∉ WRITE_MODES)
    (hp : f.data.length ≤ f.position) :
    file.next f = .error .StopIteration := by
  simp only [file.next, if_neg hm]
  rw [if_pos (by simpa using hp)]

/-- Inversion for a successful `__next__`: flags besides `in_iter` and the
content are untouched, and `in_iter` is set. -/
theorem next_ok_inv (f : file) (l : List Char) (f' : file)
    (h : file.next f = .ok (l, f')) :
    f'.mode = f.mode ∧ f'.closed = f.closed ∧ f'.in_iter = true ∧
      f'.data = f.data ∧ f'.name = f.name := by
  simp only [file.next] at h
  split at h
  · exact Except.noConfusion h
  · split at h
    · exact Except.noConfusion h
    · have := readline_ok_spec _ _ _ _ h
      subst this
      exact ⟨rfl, rfl, rfl, rfl, rfl⟩

/-- Inversion for a successful `_open_read`: only the content changes, to
the stored entry (normalized in text mode). -/
theorem open_read_inv (f : file) (store : Store) (g : file)
    (h : f.open_read store = .ok g) :
    ∃ content, LoadFile store f.name = some content ∧
      g = { f with data := if f.binary then content else crlf2lf content } := by
  simp only [file.open_read] at h
  split at h
  · exact Except.noConfusion h
  · rename_i content hc
    injection h with h
    exact ⟨content, hc, h.symm⟩

/-- Draining the `list(self)` loop with enough fuel: the cursor lands at
end-of-content (or stays, if already past it) and everything else except
the in-iteration flag is untouched. -/
theorem readlinesAux_spec :
    ∀ (fuel : Nat) (f : file), f.mode ∉ WRITE_MODES →
      f.data.length ≤ f.position + fuel →
      ((file.readlinesAux f fuel).2.position = max f.position f.data.length ∧
       (file.readlinesAux f fuel).2.data = f.data ∧
       (file.readlinesAux f fuel).2.mode = f.mode ∧
       (file.readlinesAux f fuel).2.closed = f.closed ∧
       (file.readlinesAux f fuel).2.name = f.name ∧
       (file.readlinesAux f fuel).2.binary = f.binary) := by
  intro fuel
  induction fuel with
  | zero =>
    intro f hm hlen
    simp only [file.readlinesAux]
    refine ⟨?_, by trivial, by trivial, by trivial, by trivial, by trivial⟩
    have : max f.position f.data.length = f.position :=
      Nat.max_eq_left (by omega)
    rw [this]
  | succ fuel ih =>
    intro f hm hlen
    by_cases hp : f.position < f.data.length
    · obtain ⟨l, hnext, hl, hbound⟩ := next_ok_spec f hm hp
      simp only [file.readlinesAux, hnext]
      have ih' := ih { f with in_iter := true, position := f.position + l.length }
        (by simpa using hm) (by simp; omega)
      refine ⟨?_, ?_, ?_, ?_, ?_, ?_⟩
      · rw [ih'.1]
        simp only
        have h1 : max (f.position + l.length) f.data.length = f.data.length :=
          Nat.max_eq_right hbound
        have h2 : max f.position f.data.length = f.data.length :=
          Nat.max_eq_right (by omega)
        rw [h1, h2]
      · exact ih'.2.1
      · exact ih'.2.2.1
      · exact ih'.2.2.2.1
      · exact ih'.2.2.2.2.1
      · exact ih'.2.2.2.2.2
    · have hstop := next_stop f hm (by omega)
      simp only [file.readlinesAux, hstop]
      refine ⟨?_, by trivial, by trivial, by trivial, by trivial, by trivial⟩
      have : max f.position f.data.length = f.position :=
        Nat.max_eq_left (by omega)
      rw [this]

/-- Calling `read` on a read-capable open handle with the in-iteration flag set
fails with the mixing error (storage.py lines 165-166). -/
theorem read_in_iter_error (f : file) (store : Store) (s : Option Int)
    (hm : f.mode ∈ READ_MODES) (hc : f.closed = false) (hi : f.in_iter = true) :
    file.read f store s =
      .error (.ValueError "Mixing iteration and read methods would lose data") := by
  simp only [file.read, if_neg (not_not_intro hm), hc, hi]
  rfl

/-- Calling `read` on a closed read-capable handle fails with the use-after-close
error (lines 163-164). -/
theorem read_closed_error (f : file) (store : Store) (s : Option Int)
    (hm : f.mode ∈ READ_MODES) (hc : f.closed = true) :
    file.read f store s = .error (.ValueError "I/O operation on closed file") := by
  simp only [file.read, if_neg (not_not_intro hm), hc]
  rfl

/-- Calling `write` on a closed write-capable handle fails with the use-after-close
error (lines 193-194). -/
theorem write_closed_error (f : file) (d : List Char)
    (hm : f.mode ∈ WRITE_MODES) (hc : f.closed = true) :
    file.write f d = .error (.ValueError "I/O operation on closed file") := by
  simp only [file.write, if_neg (not_not_intro hm), hc]
  rfl

/-- Inversion for a successful `read`: the flags are untouched. -/
theorem read_ok_inv (f : file) (store : Store) (s : Option Int)
    (l : List Char) (f' : file)
    (h : file.read f store s = .ok (l, f')) :
    f'.closed = f.closed ∧ f'.mode = f.mode ∧ f'.name = f.name ∧
      f'.in_iter = f.in_iter := by
  simp only [file.read] at h
  split at h
  · exact Except.noConfusion h
  · split at h
    · exact Except.noConfusion h
    · split at h
      · exact Except.noConfusion h
      · split at h
        · exact Except.noConfusion h
        · rename_i f2 heq
          injection h with h
          injection h with h1 h2
          subst h2
          split at heq
          · obtain ⟨c, hc, hg⟩ := open_read_inv _ _ _ heq
            subst hg
            exact ⟨rfl, rfl, rfl, rfl⟩
          · injection heq with heq
            subst heq
            exact ⟨rfl, rfl, rfl, rfl⟩

/-- Inversion for a successful `truncate`: the flags are untouched. -/
theorem truncate_ok_inv (f : file) (store : Store) (s : Option Int)
    (f' : file) (store' : Store)
    (h : file.truncate f store s = .ok (f', store')) :
    f'.closed = f.closed ∧ f'.mode = f.mode ∧ f'.name = f.name := by
  simp only [file.truncate, file.flush] at h
  repeat' split at h
  all_goals first
    | exact Except.noConfusion h
    | (injection h with h
       injection h with h1 h2
       subst h1
       exact ⟨rfl, rfl, rfl⟩)

/-- Calling `close` always leaves the handle marked closed (idempotently). -/
theorem close_closed (f : file) (store : Store) :
    (file.close f store).1.closed = true := by
  simp only [file.close]
  split
  · assumption
  · split
    · rfl
    · rfl

/-- Calling `seek 0 0` succeeds on any handle, `closed` or not (no closed check in
`seek`, lines 238-263). -/
theorem seek_zero_ok (f : file) :
    file.seek f 0 0 = .ok { f with in_iter := false, position := 0 } := by
  simp only [file.seek]
  rw [if_neg (by norm_num), if_neg (by norm_num)]
  rfl

/-- Helper `_open_read` never raises a `ValueError`. -/
theorem open_read_no_valueError (f : file) (store : Store) (msg : String) :
    f.open_read store ≠ .error (.ValueError msg) := by
  simp only [file.open_read]
  split
  · intro h
    injection h with h
    exact Err.noConfusion h
  · intro h
    exact Except.noConfusion h

/-- Helper `_open_append` never raises a `ValueError`. -/
theorem open_append_no_valueError (f : file) (store : Store) (msg : String) :
    f.open_append store ≠ .error (.ValueError msg) := by
  simp only [file.open_append]
  split
  · split
    · rename_i heq
      intro h
      injection h with h
      subst h
      exact open_read_no_valueError _ _ _ heq
    · intro h
      exact Except.noConfusion h
  · intro h
    exact Except.noConfusion h

/-- Once the mode check has passed, the constructor never raises a
`ValueError`: every later failure is an `IOError` (or the dead
`AssertionError` branch). -/
theorem init_no_valueError (name mode : String) (fd : Nat) (store : Store)
    (h : mode ∈ ALL_MODES) (msg : String) :
    file.init name mode fd store ≠ .error (.ValueError msg) := by
  simp only [file.init]
  rw [if_neg (not_not_intro h)]
  split
  · intro hh
    injection hh with hh
    exact Err.noConfusion hh
  · split
    · split
      · rename_i heq
        intro hh
        injection hh with hh
        subst hh
        exact open_read_no_valueError _ _ _ heq
      · intro hh
        exact Except.noConfusion hh
    · split
      · split
        · exact open_append_no_valueError _ _ _
        · intro hh
          exact Except.noConfusion hh
      · intro hh
        injection hh with hh
        exact Err.noConfusion hh

/-- Opening with mode `"w"`: eagerly saves an empty entry and returns a
fresh empty text handle. -/
theorem init_w (name : String) (fd : Nat) (store : Store) (h : name ≠ "") :
    file.init name "w" fd store =
      .ok ({ name := name, mode := "w", position := 0, closed := false,
             binary := false, fileno := fd, in_iter := false, softspace := 0,
             data := [] },
           SaveFile store name []) := by
  simp only [file.init]
  rw [if_neg (by decide), if_neg h, if_neg (by decide), if_pos (by decide),
    if_neg (by decide)]
  rfl

/-- Opening with mode `"r"` on a stored entry: loads and CRLF-normalizes
the content, leaving the store untouched. -/
theorem init_r (name : String) (fd : Nat) (store : Store) (content : List Char)
    (h : name ≠ "") (hl : LoadFile store name = some content) :
    file.init name "r" fd store =
      .ok ({ name := name, mode := "r", position := 0, closed := false,
             binary := false, fileno := fd, in_iter := false, softspace := 0,
             data := crlf2lf content },
           store) := by
  simp only [file.init]
  rw [if_neg (by decide), if_neg h, if_pos (by decide)]
  simp only [file.open_read, hl]
  rfl

/-- Inversion for a successful open with mode `"r"`: the store is
unchanged and the handle is a fresh normalized read handle. -/
theorem init_r_inv (name : String) (fd : Nat) (store : Store)
    (g : file) (store' : Store)
    (h : file.init name "r" fd store = .ok (g, store')) :
    store' = store ∧ ∃ content, LoadFile store name = some content ∧
      g = { name := name, mode := "r", position := 0, closed := false,
            binary := false, fileno := fd, in_iter := false, softspace := 0,
            data := crlf2lf content } := by
  simp only [file.init] at h
  rw [if_neg (by decide)] at h
  split at h
  · exact Except.noConfusion h
  · rw [if_pos (by decide)] at h
    split at h
    · exact Except.noConfusion h
    · rename_i f' heq
      injection h with h
      injection h with h1 h2
      subst h1
      obtain ⟨c, hc, hg⟩ := open_read_inv _ _ _ heq
      subst hg
      exact ⟨h2.symm, c, hc, rfl⟩

/-- Calling `read` on a clean (not closed, not iterating) read-capable handle
always succeeds, provided the store still holds the entry in case the
cursor-at-0 reload fires. -/
theorem read_clean_ok (f : file) (store : Store)
    (hm : f.mode ∈ READ_MODES) (hc : f.closed = false) (hi : f.in_iter = false)
    (hload : f.position = 0 → f.mode ∉ WRITE_MODES → (LoadFile store f.name).isSome) :
    ∃ r f'', file.read f store none = .ok (r, f'') := by
  simp only [file.read]
  rw [if_neg (not_not_intro hm),
    if_neg (show ¬(f.closed = true) from by simp [hc]),
    if_neg (show ¬(f.in_iter = true) from by simp [hi])]
  by_cases hp : f.position = 0 ∧ f.mode ∉ WRITE_MODES
  · obtain ⟨c, hcc⟩ := Option.isSome_iff_exists.mp (hload hp.1 hp.2)
    rw [if_pos hp]
    simp only [file.open_read, hcc]
    exact ⟨_, _, rfl⟩
  · rw [if_neg hp]
    exact ⟨_, _, rfl⟩

/-- Function `crlf2lf` maps only the empty content to the empty content. -/
theorem crlf2lf_nil (l : List Char) (h : crlf2lf l = []) : l = [] := by
  cases l with
  | nil => rfl
  | cons c1 r =>
    cases r with
    | nil => rw [crlf2lf] at h; exact List.noConfusion h
    | cons c2 r2 =>
      rw [crlf2lf] at h
      split at h
      · exact List.noConfusion h
      · exact List.noConfusion h

/-- Calling `read` with the cursor at end-of-content on an `"r"`-mode handle whose
content matches the stored entry returns the empty result and does not
move the handle. -/
theorem read_r_at_end (f : file) (store : Store) (content : List Char)
    (hm : f.mode = "r") (hc : f.closed = false) (hi : f.in_iter = false)
    (hb : f.binary = false) (hdata : f.data = crlf2lf content)
    (hload : LoadFile store f.name = some content)
    (hpos : f.position = f.data.length) :
    file.read f store none = .ok ([], f) := by
  obtain ⟨nm, md, pos, cl, bin, fn, ii, ss, dt⟩ := f
  simp only at hm hc hi hb hdata hload hpos
  subst hm
  subst hc
  subst hi
  subst hb
  subst hpos
  by_cases hdt : dt = []
  · subst hdt
    have hcnil : content = [] := crlf2lf_nil content hdata.symm
    subst hcnil
    simp only [file.read, file.open_read, hload]
    rfl
  · simp only [file.read]
    rw [if_neg (show ¬(dt.length = 0 ∧ "r" ∉ WRITE_MODES) from
      fun hand => hdt (List.eq_nil_of_length_eq_zero hand.1))]
    show (Except.ok (List.take dt.length (List.drop dt.length dt),
        { name := nm, mode := "r",
          position := dt.length + (List.take dt.length (List.drop dt.length dt)).length,
          closed := false, binary := false, fileno := fn, in_iter := false,
          softspace := ss, data := dt }) : Except Err (List Char × file)) =
      Except.ok ([], { name := nm, mode := "r", position := dt.length,
                       closed := false, binary := false, fileno := fn,
                       in_iter := false, softspace := ss, data := dt })
    rw [List.drop_length]
    simp

/-- Writing nonempty text to a fresh empty `"w"` handle stores the
CRLF-translated data at position 0. -/
theorem write_fresh_w (nm : String) (fd : Nat) (T : List Char) (hT : T ≠ []) :
    file.write { name := nm, mode := "w", position := 0, closed := false,
                 binary := false, fileno := fd, in_iter := false,
                 softspace := 0, data := [] } T =
      .ok { name := nm, mode := "w", position := (lf2crlf T).length,
            closed := false, binary := false, fileno := fd, in_iter := false,
            softspace := 0, data := lf2crlf T } := by
  simp only [file.write]
  rw [if_neg (by decide : ¬("w" ∉ WRITE_MODES))]
  rw [if_neg hT]
  simp

/-- Reading everything from a fresh `"r"` handle: the cursor-at-0 reload
re-fetches the stored entry and the whole normalized content is returned. -/
theorem read_r_full (nm : String) (fd : Nat) (store : Store) (content : List Char)
    (hload : LoadFile store nm = some content) :
    file.read { name := nm, mode := "r", position := 0, closed := false,
                binary := false, fileno := fd, in_iter := false,
                softspace := 0, data := crlf2lf content } store none =
      .ok (crlf2lf content,
           { name := nm, mode := "r", position := (crlf2lf content).length,
             closed := false, binary := false, fileno := fd, in_iter := false,
             softspace := 0, data := crlf2lf content }) := by
  simp only [file.read, file.open_read, hload]
  simp [List.take_length]
  decide

/-- Calling `readline` never fails on a handle whose mode is outside
`WRITE_MODES`: every branch returns a result (there is no closed check,
lines 303-343). -/
theorem readline_total (f : file) (s : Option Int) (hm : f.mode ∉ WRITE_MODES) :
    ∃ l f', file.readline f s = .ok (l, f') := by
  simp only [file.readline]
  rw [if_neg hm]
  by_cases hEOF : f.data.length ≤ f.position
  · rw [if_pos hEOF]
    exact ⟨_, _, rfl⟩
  · rw [if_neg hEOF]
    cases hF : strFind '\n' (f.data.drop f.position) <;>
      cases hS : normSize s <;>
      dsimp only <;>
      first
        | exact ⟨_, _, rfl⟩
        | (split_ifs <;> exact ⟨_, _, rfl⟩)

/-- Calling `readlines` never fails on a handle whose mode is outside
`WRITE_MODES`: it drains and returns (there is no closed check,
lines 345-361). -/
theorem readlines_total (f : file) (s : Option Int) (hm : f.mode ∉ WRITE_MODES) :
    ∃ ls f', file.readlines f s = .ok (ls, f') := by
  cases s <;>
    (simp only [file.readlines]
     rw [if_neg hm]
     exact ⟨_, _, rfl⟩)

/-- Inversion for a successful `readlines`: the `closed` flag is
untouched. -/
theorem readlines_ok_inv (f : file) (s : Option Int) (ls : List (List Char))
    (f' : file) (h : file.readlines f s = .ok (ls, f')) :
    f'.closed = f.closed := by
  cases s <;>
    (simp only [file.readlines] at h
     split at h
     · exact Except.noConfusion h
     · injection h with h
       injection h with h1 h2
       subst h2
       rename_i hm
       have spec := readlinesAux_spec (f.data.length + 1 - f.position) f hm (by omega)
       simpa using spec.2.2.2.1)

/-! ## Claim theorems -/

/-- C1 (counterexample): the claim says exactly the 12 spec-listed mode
tokens are accepted, but the constructor also accepts the 13th token `rU`
(it is in `ALL_MODES`), returning an open handle instead of raising the
mode `ValueError`. -/
theorem C1_counterexample_rU_accepted :
    "rU" ∉ specTwelveModes ∧
    file.init "f" "rU" 3 [("f", ['a'])] =
      .ok ({ name := "f", mode := "rU", position := 0, closed := false,
             binary := false, fileno := 3, in_iter := false, softspace := 0,
             data := ['a'] }, [("f", ['a'])]) :=
  ⟨by decide, rfl⟩

/-- C1 (amended): the constructor raises the families-naming `ValueError`
exactly when the mode is outside the source's 13-token `ALL_MODES` (the
spec's 12 tokens plus `rU`); every mode in `ALL_MODES` is accepted in the
sense that no mode `ValueError` is raised. -/
theorem C1_amended_thirteen_modes (name mode : String) (fd : Nat) (store : Store) :
    file.init name mode fd store =
      .error (.ValueError
        ("The only supported modes are r(+)(b), w(+)(b) and a(+)(b), not " ++ mode))
      ↔ mode ∉ ALL_MODES := by
  constructor
  · intro h
    by_contra hmem
    exact init_no_valueError name mode fd store hmem _ h
  · intro h
    simp only [file.init]
    rw [if_pos h]

/-- C2 (counterexample): the claim says every operation except a repeated
`close` fails once `closed` is true, but `seek` and `readline` succeed on
a closed handle reached through the public constructor and `close`. -/
theorem C2_counterexample_seek_after_close :
    file.init "f" "r" 3 [("f", ['a'])] = .ok (c2f0, [("f", ['a'])]) ∧
    file.close c2f0 [("f", ['a'])] = (c2f1, [("f", ['a'])]) ∧
    c2f1.closed = true ∧
    file.seek c2f1 5 0 = .ok { c2f1 with in_iter := false, position := 5 } ∧
    file.readline c2f1 none = .ok (['a'], { c2f1 with position := 1 }) :=
  ⟨rfl, rfl, rfl, rfl, rfl⟩

/-- C2 (amended): once `closed` is true, `read` and `write` fail with the
use-after-close `ValueError`, but `seek`, `tell`, `flush`, `readline`,
`readlines`, `truncate` and the iteration step (`__next__`) do not check
`closed` and proceed normally on a closed handle (subject only to their
usual mode guards, with `__next__` signalling `StopIteration` at
end-of-content as usual); `closed` is monotonic: no operation resets it,
and `close` always leaves it true. -/
theorem C2_amended_closed_checks :
    (∀ (f : file) (store : Store) (s : Option Int),
      f.mode ∈ READ_MODES → f.closed = true →
      file.read f store s = .error (.ValueError "I/O operation on closed file")) ∧
    (∀ (f : file) (d : List Char),
      f.mode ∈ WRITE_MODES → f.closed = true →
      file.write f d = .error (.ValueError "I/O operation on closed file")) ∧
    (∀ f : file, file.seek f 0 0 = .ok { f with in_iter := false, position := 0 }) ∧
    (∀ (f : file) (store : Store), f.mode ∈ WRITE_MODES →
      file.flush f store = .ok (SaveFile store f.name f.data)) ∧
    (∀ f : file, f.closed = true → file.tell f = f.position) ∧
    (∀ (f : file) (s : Option Int), f.mode ∉ WRITE_MODES → f.closed = true →
      ∃ l f', file.readline f s = .ok (l, f')) ∧
    (∀ (f : file) (s : Option Int), f.mode ∉ WRITE_MODES → f.closed = true →
      ∃ ls f', file.readlines f s = .ok (ls, f')) ∧
    (∀ (f : file) (store : Store), f.mode ∉ READ_MODES → f.mode ∈ WRITE_MODES →
      f.closed = true → ∃ f' store', file.truncate f store none = .ok (f', store')) ∧
    (∀ f : file, f.mode ∉ WRITE_MODES → f.closed = true →
      f.position < f.data.length → ∃ l f', file.next f = .ok (l, f')) ∧
    (∀ f : file, f.mode ∉ WRITE_MODES → f.closed = true →
      f.data.length ≤ f.position → file.next f = .error .StopIteration) ∧
    (∀ (f : file) (p w : Int) (f' : file),
      file.seek f p w = .ok f' → f'.closed = f.closed) ∧
    (∀ (f : file) (s : Option Int) (l : List Char) (f' : file),
      file.readline f s = .ok (l, f') → f'.closed = f.closed) ∧
    (∀ (f : file) (store : Store) (s : Option Int) (l : List Char) (f' : file),
      file.read f store s = .ok (l, f') → f'.closed = f.closed) ∧
    (∀ (f : file) (d : List Char) (f' : file),
      file.write f d = .ok f' → f'.closed = f.closed) ∧
    (∀ (f : file) (store : Store) (s : Option Int) (f' : file) (store' : Store),
      file.truncate f store s = .ok (f', store') → f'.closed = f.closed) ∧
    (∀ (f : file) (l : List Char) (f' : file),
      file.next f = .ok (l, f') → f'.closed = f.closed) ∧
    (∀ (f : file) (s : Option Int) (ls : List (List Char)) (f' : file),
      file.readlines f s = .ok (ls, f') → f'.closed = f.closed) ∧
    (∀ (f : file) (store : Store), (file.close f store).1.closed = true) := by
  refine ⟨read_closed_error, write_closed_error, seek_zero_ok, ?_, ?_, ?_, ?_, ?_,
    ?_, ?_, ?_, ?_, ?_, ?_, ?_, ?_, readlines_ok_inv, close_closed⟩
  · intro f store hm
    simp only [file.flush, if_neg (not_not_intro hm)]
  · intro f _
    rfl
  · intro f s hm _
    exact readline_total f s hm
  · intro f s hm _
    exact readlines_total f s hm
  · intro f store hr hw _
    simp only [file.truncate, file.flush]
    rw [if_neg hr, if_neg (not_not_intro hw)]
    exact ⟨_, _, rfl⟩
  · intro f hm _ hp
    obtain ⟨l, h, -, -⟩ := next_ok_spec f hm hp
    exact ⟨l, _, h⟩
  · intro f hm _ hl
    exact next_stop f hm hl
  · intro f p w f' h
    obtain ⟨n, hn⟩ := seek_ok_spec f p w f' h
    rw [hn]
  · intro f s l f' h
    rw [readline_ok_spec f s l f' h]
  · intro f store s l f' h
    exact (read_ok_inv f store s l f' h).1
  · intro f d f' h
    exact (write_ok_spec f d f' h).1
  · intro f store s f' store' h
    exact (truncate_ok_inv f store s f' store' h).1
  · intro f l f' h
    exact (next_ok_inv f l f' h).2.1

/-- C2 (witness): the amended claim instantiated on concrete closed
handles: `read` and `write` fail with the use-after-close error, while
`seek`, `tell`, `flush`, `readline`, `readlines`, `truncate` and the
iteration step all proceed; the monotonicity clauses evaluated on
concrete successful operations; `close` leaves `closed` true. -/
theorem C2_amended_closed_checks_witness :
    file.read c2f1 [("f", ['a'])] none =
      .error (.ValueError "I/O operation on closed file") ∧
    file.write { c5f with closed := true } ['x'] =
      .error (.ValueError "I/O operation on closed file") ∧
    file.seek c2f1 0 0 = .ok { c2f1 with in_iter := false, position := 0 } ∧
    file.flush { c5f with closed := true } [] =
      .ok (SaveFile [] ({ c5f with closed := true } : file).name
            ({ c5f with closed := true } : file).data) ∧
    file.tell c2f1 = c2f1.position ∧
    (∃ l f', file.readline c2f1 none = .ok (l, f')) ∧
    (∃ ls f', file.readlines c2f1 none = .ok (ls, f')) ∧
    (∃ f' store', file.truncate { c5f with closed := true } [] none = .ok (f', store')) ∧
    (∃ l f', file.next c2f1 = .ok (l, f')) ∧
    file.next { c2f1 with position := 5 } = .error .StopIteration ∧
    ({ c2f1 with in_iter := false, position := 5 } : file).closed = c2f1.closed ∧
    ({ c2f1 with position := 1 } : file).closed = c2f1.closed ∧
    ({ c8f with position := 3, in_iter := true } : file).closed = c8f.closed ∧
    ({ c8f with position := 5 } : file).closed = c8f.closed ∧
    (file.close c2f0 [("f", ['a'])]).1.closed = true := by
  obtain ⟨h1, h2, h3, h4, h5, h6, h7, h8, h9, h10, h11, h12, h13, h14, h15, h16, h17, h18⟩ :=
    C2_amended_closed_checks
  exact ⟨h1 c2f1 [("f", ['a'])] none (by decide) rfl,
    h2 { c5f with closed := true } ['x'] (by decide) rfl,
    h3 c2f1,
    h4 { c5f with closed := true } [] (by decide),
    h5 c2f1 rfl,
    h6 c2f1 none (by decide) rfl,
    h7 c2f1 none (by decide) rfl,
    h8 { c5f with closed := true } [] (by decide) (by decide) rfl,
    h9 c2f1 (by decide) rfl (by decide),
    h10 { c2f1 with position := 5 } (by decide) rfl (by decide),
    h11 c2f1 5 0 _ rfl,
    h12 c2f1 none ['a'] { c2f1 with position := 1 } rfl,
    h16 c8f "ab\n".toList { c8f with position := 3, in_iter := true } rfl,
    h17 c8f none ["ab\n".toList, "cd".toList] { c8f with position := 5 } rfl,
    h18 c2f0 [("f", ['a'])]⟩

/-- C3 (code bug): the claim — taken from both the spec and real file
semantics — says `truncate` must not raise the bad-descriptor error on
write-capable mixed modes, but because line 26 adds the mixed tokens to
`READ_MODES`, `truncate`'s `mode in READ_MODES` guard (line 388) rejects
`r+` even though `write` accepts it on the very same handle. -/
theorem C3_code_bug_truncate_mixed :
    "r+" ∈ MIXED_MODES ∧ "r+" ∈ WRITE_MODES ∧
    file.write c3f ['x'] = .ok { c3f with data := ['x', 'b'], position := 1 } ∧
    file.truncate c3f [] none = .error (.IOError "Bad file descriptor") :=
  ⟨by decide, by decide, rfl, rfl⟩

/-- C4 (code bug): the claim says the read-side line operations are
permitted on mixed modes, but because line 27 adds the mixed tokens to
`WRITE_MODES`, the `mode in WRITE_MODES` guards of `readline`, `__next__`
and `readlines` (lines 310, 294, 352) reject `r+` even though `read`
accepts it on the very same handle. -/
theorem C4_code_bug_readline_mixed :
    "r+" ∈ READ_MODES ∧
    file.read c4f [] none = .ok ("ab\n".toList, { c4f with position := 3 }) ∧
    file.readline c4f none = .error (.IOError "Bad file descriptor") ∧
    file.next c4f = .error (.IOError "Bad file descriptor") ∧
    file.readlines c4f none = .error (.IOError "Bad file descriptor") :=
  ⟨by decide, rfl, rfl, rfl, rfl⟩

/-- C5 (counterexample): the claim says empty-name open, negative explicit
truncate size and out-of-range seek whence raise ValueError-class errors,
but all three raise IOError-class errors (storage.py lines 110-111,
392-393, 252-253). -/
theorem C5_counterexample_ioerror :
    file.init "" "w" 3 [] = .error (.IOError "No such file or directory: ''") ∧
    file.truncate c5f [] (some (-1)) = .error (.IOError "Invalid argument") ∧
    file.seek c5f 0 3 = .error (.IOError "Invalid Argument") :=
  ⟨rfl, rfl, rfl⟩

/-- C5 (amended): opening with an empty name, truncating to a negative
explicit size, and seeking with a whence outside 0..2 each fail with an
IOError-class error (not ValueError-class). -/
theorem C5_amended_ioerror_class :
    (∀ (mode : String) (fd : Nat) (store : Store), mode ∈ ALL_MODES →
      file.init "" mode fd store = .error (.IOError "No such file or directory: ''")) ∧
    (∀ (f : file) (store : Store) (s : Int), f.mode ∉ READ_MODES → s < 0 →
      file.truncate f store (some s) = .error (.IOError "Invalid argument")) ∧
    (∀ (f : file) (p w : Int), ¬(0 ≤ w ∧ w ≤ 2) →
      file.seek f p w = .error (.IOError "Invalid Argument")) := by
  refine ⟨?_, ?_, ?_⟩
  · intro mode fd store h
    simp only [file.init]
    rw [if_neg (not_not_intro h)]
    rfl
  · intro f store s hm hs
    simp only [file.truncate]
    rw [if_neg hm, if_pos hs]
  · intro f p w hw
    simp only [file.seek]
    rw [if_pos hw]

/-- C5 (witness): the amended claim instantiated at the concrete inputs of
the counterexample. -/
theorem C5_amended_ioerror_class_witness :
    file.init "" "w" 4 [] = .error (.IOError "No such file or directory: ''") ∧
    file.truncate c5f [("g", [])] (some (-2)) = .error (.IOError "Invalid argument") ∧
    file.seek c5f 1 4 = .error (.IOError "Invalid Argument") :=
  ⟨C5_amended_ioerror_class.1 "w" 4 [] (by decide),
   C5_amended_ioerror_class.2.1 c5f [("g", [])] (-2) (by decide) (by norm_num),
   C5_amended_ioerror_class.2.2 c5f 1 4 (by norm_num)⟩

/-- C6: writing any text `T` containing a LF to a fresh `"w"` handle,
closing it (which commits), then opening the same name in `"r"` mode and
reading everything returns exactly `T`: the LF-to-CRLF write translation
and the CRLF-to-LF load normalization compose to the identity. -/
theorem C6_text_write_read_roundtrip (T : List Char) (name : String)
    (store : Store) (fd fd2 : Nat) (hn : name ≠ "") (hT : '\n' ∈ T) :
    ∃ (f f2 f3 g r : file) (store2 : Store),
      file.init name "w" fd store = .ok (f, SaveFile store name []) ∧
      file.write f T = .ok f2 ∧
      file.close f2 (SaveFile store name []) = (f3, store2) ∧
      file.init name "r" fd2 store2 = .ok (g, store2) ∧
      file.read g store2 none = .ok (T, r) := by
  have hTne : T ≠ [] := List.ne_nil_of_mem hT
  have hlook : LoadFile (SaveFile (SaveFile store name []) name (lf2crlf T)) name
      = some (lf2crlf T) := by
    simp [LoadFile, SaveFile, List.lookup]
  have h1 := init_w name fd store hn
  have h2 := write_fresh_w name fd T hTne
  have h4 := init_r name fd2 (SaveFile (SaveFile store name []) name (lf2crlf T))
    (lf2crlf T) hn hlook
  rw [crlf2lf_lf2crlf] at h4
  have h5 := read_r_full name fd2 (SaveFile (SaveFile store name []) name (lf2crlf T))
    (lf2crlf T) hlook
  rw [crlf2lf_lf2crlf] at h5
  exact ⟨_, _, _, _, _, _, h1, h2, rfl, h4, h5⟩

/-- C6 (witness): the round trip at `T = "a\nb"`, name `"f"`, empty
store. -/
theorem C6_text_write_read_roundtrip_witness :
    ∃ (f f2 f3 g r : file) (store2 : Store),
      file.init "f" "w" 3 [] = .ok (f, SaveFile [] "f" []) ∧
      file.write f "a\nb".toList = .ok f2 ∧
      file.close f2 (SaveFile [] "f" []) = (f3, store2) ∧
      file.init "f" "r" 4 store2 = .ok (g, store2) ∧
      file.read g store2 none = .ok ("a\nb".toList, r) :=
  C6_text_write_read_roundtrip "a\nb".toList "f" [] 3 4 (by decide) (by decide)

/-- C7: on a fresh empty `"w+"` handle, `seek 10` then `write "x"` yields
content of 10 null characters followed by `x`, and reading from offset 0
returns exactly that; in general, content beyond the write's end is
preserved (the tail of the content after the final cursor is the old
tail). -/
theorem C7_sparse_write_padding :
    (file.init "f" "w+" 3 [] = .ok (c7f, [("f", [])])) ∧
    (file.seek c7f 10 0 = .ok { c7f with position := 10 }) ∧
    (file.write { c7f with position := 10 } ['x'] =
      .ok { c7f with position := 11, data := List.replicate 10 '\x00' ++ ['x'] }) ∧
    (file.seek { c7f with position := 11, data := List.replicate 10 '\x00' ++ ['x'] } 0 0 =
      .ok { c7f with position := 0, data := List.replicate 10 '\x00' ++ ['x'] }) ∧
    (file.read { c7f with position := 0, data := List.replicate 10 '\x00' ++ ['x'] }
        [("f", [])] none =
      .ok (List.replicate 10 '\x00' ++ ['x'],
        { c7f with position := 11, data := List.replicate 10 '\x00' ++ ['x'] })) ∧
    (∀ (f : file) (d : List Char) (f' : file), file.write f d = .ok f' →
      f'.data.drop f'.position = f.data.drop f'.position) :=
  ⟨rfl, rfl, rfl, rfl, rfl, fun f d f' h => (write_ok_spec f d f' h).2.2.2⟩

/-- C7 (witness): the tail-preservation clause instantiated on a concrete
write. -/
theorem C7_sparse_write_padding_witness :
    ({ c5f with data := ['y'], position := 1 } : file).data.drop
        ({ c5f with data := ['y'], position := 1 } : file).position =
      c5f.data.drop ({ c5f with data := ['y'], position := 1 } : file).position :=
  C7_sparse_write_padding.2.2.2.2.2 c5f ['y'] { c5f with data := ['y'], position := 1 } rfl

/-- C8: on a read-text handle with content `"ab\ncd"`, the first
`readline()` returns `"ab\n"` leaving the cursor at 3, the second returns
`"cd"`, the third returns the empty result without error; in general a
successful `readline` changes only the cursor, advancing it by exactly the
length of the returned (possibly size-truncated) line. -/
theorem C8_readline_boundaries :
    (file.init "f" "r" 3 [("f", "ab\ncd".toList)] =
      .ok (c8f, [("f", "ab\ncd".toList)])) ∧
    (file.readline c8f none = .ok ("ab\n".toList, { c8f with position := 3 })) ∧
    (file.readline { c8f with position := 3 } none =
      .ok ("cd".toList, { c8f with position := 5 })) ∧
    (file.readline { c8f with position := 5 } none =
      .ok ([], { c8f with position := 5 })) ∧
    (∀ (f : file) (s : Option Int) (l : List Char) (f' : file),
      file.readline f s = .ok (l, f') →
      f' = { f with position := f.position + l.length }) :=
  ⟨rfl, rfl, rfl, rfl, readline_ok_spec⟩

/-- C8 (witness): the size-truncation clause at `readline(1)` on
`"ab\ncd"`: the cursor advances only by the truncated amount 1. -/
theorem C8_readline_boundaries_witness :
    ({ c8f with position := 1 } : file) =
      { c8f with position := c8f.position + (['a'] : List Char).length } :=
  C8_readline_boundaries.2.2.2.2 c8f (some 1) ['a'] { c8f with position := 1 } rfl

/-- C9: after an iteration step (`__next__`) on an open read-capable
handle, a direct `read()` fails with the mixing `ValueError`; after a
subsequent explicit `seek`, `read()` succeeds again (seek clears the
in-iteration flag) — the stored entry must still exist when the seek lands
on 0 and the mode is not write-capable, because `read` then reloads. -/
theorem C9_iteration_read_exclusivity :
    (∀ (f : file) (store : Store) (s : Option Int) (l : List Char) (f' : file),
      f.mode ∈ READ_MODES → f.closed = false →
      file.next f = .ok (l, f') →
      file.read f' store s =
        .error (.ValueError "Mixing iteration and read methods would lose data")) ∧
    (∀ (f : file) (store : Store) (p w : Int) (f' : file),
      f.mode ∈ READ_MODES → f.closed = false →
      file.seek f p w = .ok f' →
      (f'.position = 0 → f.mode ∉ WRITE_MODES → (LoadFile store f.name).isSome) →
      ∃ r f'', file.read f' store none = .ok (r, f'')) := by
  constructor
  · intro f store s l f' hm hc hnext
    obtain ⟨h1, h2, h3, -, -⟩ := next_ok_inv f l f' hnext
    exact read_in_iter_error f' store s (h1.symm ▸ hm) (h2.trans hc) h3
  · intro f store p w f' hm hc hseek hload
    obtain ⟨n, hn⟩ := seek_ok_spec f p w f' hseek
    subst hn
    exact read_clean_ok _ store (by simpa using hm) (by simpa using hc) (by simp)
      (fun h0 hw => hload h0 (by simpa using hw))

/-- C9 (witness): on the `"ab\ncd"` read handle, `read` after one
iteration step fails with the mixing error, and `read` after `seek 0`
succeeds again. -/
theorem C9_iteration_read_exclusivity_witness :
    file.read { c8f with position := 3, in_iter := true }
        [("f", "ab\ncd".toList)] none =
      .error (.ValueError "Mixing iteration and read methods would lose data") ∧
    (∃ r f'', file.read { c8f with in_iter := false, position := 0 }
        [("f", "ab\ncd".toList)] none = .ok (r, f'')) :=
  ⟨C9_iteration_read_exclusivity.1 c8f [("f", "ab\ncd".toList)] none "ab\n".toList
      { c8f with position := 3, in_iter := true } (by decide) rfl rfl,
   C9_iteration_read_exclusivity.2 c8f [("f", "ab\ncd".toList)] 0 0
      { c8f with in_iter := false, position := 0 } (by decide) rfl rfl
      (fun _ _ => by decide)⟩

/-- C10: `readlines` clears the in-iteration flag when it returns, so
after a full drain a direct `read()` on the same handle is permitted —
even though no seek occurred — and returns the empty result at
end-of-content. -/
theorem C10_readlines_clears_in_iter (name : String) (fd : Nat) (store : Store)
    (g : file) (ls : List (List Char)) (g' : file)
    (hinit : file.init name "r" fd store = .ok (g, store))
    (hrl : file.readlines g none = .ok (ls, g')) :
    g'.in_iter = false ∧ file.read g' store none = .ok ([], g') := by
  obtain ⟨-, c, hc, hg⟩ := init_r_inv name fd store g store hinit
  subst hg
  simp only [file.readlines] at hrl
  split at hrl
  · exact Except.noConfusion hrl
  · simp only [Nat.sub_zero] at hrl
    injection hrl with hrl
    injection hrl with hls hg'
    subst hg'
    obtain ⟨s1, s2, s3, s4, s5, s6⟩ :=
      readlinesAux_spec ((crlf2lf c).length + 1)
        { name := name, mode := "r", position := 0, closed := false,
          binary := false, fileno := fd, in_iter := false, softspace := 0,
          data := crlf2lf c }
        (show ("r" : String) ∉ WRITE_MODES from by decide) (by simp)
    refine ⟨rfl, ?_⟩
    refine read_r_at_end _ store c ?_ ?_ rfl ?_ ?_ ?_ ?_
    · simpa using s3
    · simpa using s4
    · simpa using s6
    · simpa using s2
    · have hname :
        (file.readlinesAux
          { name := name, mode := "r", position := 0, closed := false,
            binary := false, fileno := fd, in_iter := false, softspace := 0,
            data := crlf2lf c } ((crlf2lf c).length + 1)).2.name = name := by
        simpa using s5
      simpa [hname] using hc
    · have h1 :
        (file.readlinesAux
          { name := name, mode := "r", position := 0, closed := false,
            binary := false, fileno := fd, in_iter := false, softspace := 0,
            data := crlf2lf c } ((crlf2lf c).length + 1)).2.position =
          max 0 (crlf2lf c).length := by
        simpa using s1
      have h2 :
        (file.readlinesAux
          { name := name, mode := "r", position := 0, closed := false,
            binary := false, fileno := fd, in_iter := false, softspace := 0,
            data := crlf2lf c } ((crlf2lf c).length + 1)).2.data = crlf2lf c := by
        simpa using s2
      simp [h1, h2]

/-- C10 (witness): draining `"ab\ncd"` via `readlines` leaves the
in-iteration flag cleared and a subsequent `read` returns the empty
result. -/
theorem C10_readlines_clears_in_iter_witness :
    ({ c8f with position := 5 } : file).in_iter = false ∧
    file.read { c8f with position := 5 } [("f", "ab\ncd".toList)] none =
      .ok ([], { c8f with position := 5 }) :=
  C10_readlines_clears_in_iter "f" 3 [("f", "ab\ncd".toList)] c8f
    ["ab\n".toList, "cd".toList] { c8f with position := 5 } rfl rfl
